import Mathlib

/-!
Verification of the streaming correlation and completion engine of the
screener repository (main.go, with the bid/ask program variant sharing the
same order-summary and callback structure).  Prices are exact fixed-point
decimals, embedded as rationals; the float64 reference change is embedded as
an optional rational, none standing for NaN.
-/

attribute [local semireducible] Rat.add Rat.sub Rat.mul Rat.inv

deriving instance DecidableEq for Except

/-- One price level of one side of an order book as delivered by the stream
(gamma.OrderSummary): a textual price and a textual size. -/
structure OrderSummary where
  price : String
  size : String
deriving DecidableEq

/-- One streamed event (gamma.BookMessage): its kind, the asset identifier it
concerns, and the two ordered level sequences. -/
structure BookMessage where
  eventType : String
  assetID : String
  bids : List OrderSummary
  asks : List OrderSummary
deriving DecidableEq

/-- The recognized book-snapshot event kind (the gamma.BookEvent constant of
the external streaming library; only its distinctness from other kinds
matters). -/
def bookEvent : String := "book"

/-- Numeric value of a decimal digit character, none for a non-digit. -/
def digitVal (c : Char) : Option ℕ :=
  if c.isDigit then some (c.toNat - 48) else none

/-- Reads a nonempty all-digit character list as a natural number. -/
def parseNatDigits (cs : List Char) : Option ℕ :=
  if cs.isEmpty then none
  else cs.foldlM (fun a c => (digitVal c).map (fun d => a * 10 + d)) 0

/-- Unsigned part of a textual decimal: a digit sequence with an optional
single point and fractional digit sequence, read as an exact rational. -/
def parseUnsigned (cs : List Char) : Option ℚ :=
  match cs.splitOn '.' with
  | [intPart] => (parseNatDigits intPart).map (fun n => (mkRat n 1 : ℚ))
  | [intPart, fracPart] =>
      match parseNatDigits intPart, parseNatDigits fracPart with
      | some n, some f =>
          some (mkRat (n * 10 ^ fracPart.length + f) (10 ^ fracPart.length))
      | _, _ => none
  | _ => none

/-- Modelled from the external fixed-point decimal library the source calls
(shopspring decimal.NewFromString, not part of this repository): an optional
sign followed by a decimal digit string with optional fractional part parses
to the exact rational it denotes; any other string is rejected.  Exponent
forms are outside the model. -/
def parseDecimal (s : String) : Option ℚ :=
  match s.toList with
  | '+' :: rest => parseUnsigned rest
  | '-' :: rest => (parseUnsigned rest).map (fun q => -q)
  | cs => parseUnsigned cs

/-- Direct translation of getOrderSummary (identical in both program
variants): for a nonempty level sequence the price of the LAST level
(summary[len(summary)-1].Price) is parsed and returned; for an empty sequence
the result is nil (none).  A price string that fails to parse hits the fatal
log.Fatalf path, modelled as the error case carrying the offending string. -/
def getOrderSummary (summary : List OrderSummary) : Except String (Option ℚ) :=
  match summary.getLast? with
  | some lastLevel =>
      match parseDecimal lastLevel.price with
      | some price => Except.ok (some price)
      | none => Except.error lastLevel.price
  | none => Except.ok none

/-- A configured watched instrument (ScreenerSymbol): display symbol and
optional reference-lookup alias. -/
structure ScreenerSymbol where
  symbol : String
  yahoo : String
deriving DecidableEq

instance : Inhabited ScreenerSymbol := ⟨⟨"", ""⟩⟩

/-- Per-instrument result slot (symbolData of main.go).  The change field is
the float64 reference change, none standing for NaN; the Go zero value of an
unwritten slot has empty strings, nil prices and change 0.0. -/
structure symbolData where
  symbol : String
  yahoo : String
  yes : Option ℚ
  no : Option ℚ
  spread : Option ℚ
  change : Option ℚ
deriving DecidableEq

instance : Inhabited symbolData := ⟨⟨"", "", none, none, none, some 0⟩⟩

/-- Mutable state owned by runScreener during streaming: the slot array
(symbols), the accepted-event counter (symbolCount) and the lines printed to
standard output for unrecognized identifiers. -/
structure ScreenerState where
  symbols : List symbolData
  symbolCount : ℕ
  log : List String
deriving DecidableEq

/-- The fatal log.Fatalf conditions reachable during streaming. -/
inductive FatalError where
  | malformedPrice (price : String)
  | yahooFailure (symbol : String)
deriving DecidableEq

/-- Diagnostic text of each fatal condition (the log.Fatalf format strings). -/
def fatalMessage : FatalError → String
  | FatalError.malformedPrice s => "Failed to parse price: " ++ s
  | FatalError.yahooFailure s => "Failed to retrieve last close for " ++ s

/-- Reference-lookup symbol selection: the alias when nonempty, else the
display symbol. -/
def yahooSymbolOf (s : ScreenerSymbol) : String :=
  if s.yahoo ≠ "" then s.yahoo else s.symbol

/-- The reference-change join of the callback: with the lookup enabled a
failing call is fatal (naming the display symbol) and a successful one stores
the change; with it disabled the stored change is math.NaN(), modelled none.
getChange stands for the external yahoo.GetChange collaborator. -/
def fetchChange (enableYahoo : Bool) (getChange : String → Except String ℚ)
    (yahooSymbol displaySymbol : String) : Except FatalError (Option ℚ) :=
  if enableYahoo then
    match getChange yahooSymbol with
    | Except.ok v => Except.ok (some v)
    | Except.error _ => Except.error (FatalError.yahooFailure displaySymbol)
  else
    Except.ok none

/-- First index of an asset identifier among the watched identifiers
(slices.Index, whose -1 result is modelled as none). -/
def sliceIndex (l : List String) (a : String) : Option ℕ :=
  match l with
  | [] => none
  | x :: rest => if x = a then some 0 else (sliceIndex rest a).map (fun i => i + 1)

/-- Direct translation of the subscription callback of runScreener (main.go):
a non-book event returns false at once; a book event for an unrecognized
identifier prints a notice and returns symbolCount < len(symbols); a book
event for a recognized identifier derives yes from the ask side and no as
1 minus the bid side best, joins the reference change, overwrites the slot,
increments symbolCount and returns symbolCount < len(symbols). -/
def handleMessage (assetIDs : List String) (syms : List ScreenerSymbol)
    (enableYahoo : Bool) (getChange : String → Except String ℚ)
    (st : ScreenerState) (message : BookMessage) :
    Except FatalError (ScreenerState × Bool) :=
  if message.eventType = bookEvent then
    match sliceIndex assetIDs message.assetID with
    | some index =>
        let symbol := syms.getD index default
        match getOrderSummary message.asks with
        | Except.error s => Except.error (FatalError.malformedPrice s)
        | Except.ok yes =>
            match getOrderSummary message.bids with
            | Except.error s => Except.error (FatalError.malformedPrice s)
            | Except.ok no₀ =>
                let no := no₀.map (fun p => 1 - p)
                match fetchChange enableYahoo getChange (yahooSymbolOf symbol)
                    symbol.symbol with
                | Except.error e => Except.error e
                | Except.ok change =>
                    let data : symbolData :=
                      ⟨symbol.symbol, symbol.yahoo, yes, no, none, change⟩
                    let st' : ScreenerState :=
                      ⟨st.symbols.set index data, st.symbolCount + 1, st.log⟩
                    Except.ok (st', decide (st'.symbolCount < syms.length))
    | none =>
        let st' : ScreenerState :=
          ⟨st.symbols, st.symbolCount,
           st.log ++ ["Unknown asset ID: " ++ message.assetID]⟩
        Except.ok (st', decide (st.symbolCount < syms.length))
  else
    Except.ok (st, false)

/-- The streaming loop (gamma.SubscribeToMarkets): events are delivered in
order to the callback until it returns false or the stream ends; a fatal
condition aborts the run. -/
def runStream (assetIDs : List String) (syms : List ScreenerSymbol)
    (enableYahoo : Bool) (getChange : String → Except String ℚ) :
    ScreenerState → List BookMessage → Except FatalError ScreenerState
  | st, [] => Except.ok st
  | st, message :: rest =>
      match handleMessage assetIDs syms enableYahoo getChange st message with
      | Except.error e => Except.error e
      | Except.ok (st', keep) =>
          if keep then runStream assetIDs syms enableYahoo getChange st' rest
          else Except.ok st'

/-- Initial streaming state: make([]symbolData, n) of Go zero values, counter
zero, nothing printed. -/
def initState (n : ℕ) : ScreenerState :=
  ⟨List.replicate n default, 0, []⟩

/-- Highlight colors applied by printTable through the fatih/color wrappers. -/
inductive CellColor where
  | green
  | yellow
  | red
deriving DecidableEq

/-- Rounding half away from zero to an integer, the rounding of the decimal
library's fixed-point formatting. -/
def roundHalfAway (q : ℚ) : ℤ :=
  if 0 ≤ q then ⌊q + mkRat 1 2⌋ else -⌊-q + mkRat 1 2⌋

/-- Two-digit zero-padded rendering of a remainder below 100. -/
def pad2 (n : ℕ) : String :=
  if n < 10 then "0" ++ toString n else toString n

/-- Fixed-point rendering with two decimals (shopspring StringFixed(2)):
round half away from zero at the second decimal, then print. -/
def stringFixed2 (q : ℚ) : String :=
  let m := roundHalfAway (q * 100)
  (if m < 0 then "-" else "") ++ toString (m.natAbs / 100) ++ "." ++ pad2 (m.natAbs % 100)

/-- Go fmt %+.2f%% used for the change column: explicit sign, two decimals,
percent sign. -/
def formatChange (q : ℚ) : String :=
  let m := roundHalfAway (q * 100)
  (if q < 0 then "-" else "+") ++ toString (m.natAbs / 100) ++ "." ++ pad2 (m.natAbs % 100) ++ "%"

/-- The in-source threshold constant strings of main.go. -/
def goodPriceString : String := "0.50"

/-- The in-source mediocre price bound string of main.go. -/
def mediocrePriceString : String := "0.75"

/-- The in-source spread bound string of main.go. -/
def goodSpreadString : String := "0.5"

/-- mustParseDecimal applied to in-source constant strings; its fatal branch
is unreachable for them, so the default value stands in for it. -/
def mustParseDecimal (s : String) : ℚ :=
  (parseDecimal s).getD 0

/-- Favorable price bound parsed by printTable. -/
def goodPrice : ℚ := mustParseDecimal goodPriceString

/-- Mediocre price bound parsed by printTable. -/
def mediocrePrice : ℚ := mustParseDecimal mediocrePriceString

/-- Wide-spread bound parsed by printTable. -/
def goodSpread : ℚ := mustParseDecimal goodSpreadString

/-- The nil-aware two-decimal cell text of printTable: a missing value
renders as the placeholder. -/
def getDecimalString : Option ℚ → String
  | some d => stringFixed2 d
  | none => "-"

/-- Yes-price cell of printTable: highlighted only when the reference change
is strictly positive AND the yes price exists AND is strictly positive
(IsPositive); then green at or below the good bound, yellow at or below the
mediocre bound, plain otherwise.  A NaN change (none) satisfies no comparison
and never highlights. -/
def yesCell (good mediocre : ℚ) (data : symbolData) : String × Option CellColor :=
  let yesString := getDecimalString data.yes
  match data.change, data.yes with
  | some change, some yes =>
      if 0 < change ∧ 0 < yes then
        if yes ≤ good then (yesString, some CellColor.green)
        else if yes ≤ mediocre then (yesString, some CellColor.yellow)
        else (yesString, none)
      else (yesString, none)
  | _, _ => (yesString, none)

/-- No-price cell of printTable: as the yes cell but eligible only when the
reference change is strictly negative. -/
def noCell (good mediocre : ℚ) (data : symbolData) : String × Option CellColor :=
  let noString := getDecimalString data.no
  match data.change, data.no with
  | some change, some no =>
      if change < 0 ∧ 0 < no then
        if no ≤ good then (noString, some CellColor.green)
        else if no ≤ mediocre then (noString, some CellColor.yellow)
        else (noString, none)
      else (noString, none)
  | _, _ => (noString, none)

/-- Spread cell of printTable: present only when both yes and no prices are,
valued yes + no - 1, highlighted yellow when at or above the spread bound;
otherwise the placeholder. -/
def spreadCell (good : ℚ) (data : symbolData) : String × Option CellColor :=
  match data.yes, data.no with
  | some yes, some no =>
      let spread := yes + no - 1
      let s := stringFixed2 spread
      if good ≤ spread then (s, some CellColor.yellow) else (s, none)
  | _, _ => ("-", none)

/-- Change cell of printTable: a finite change renders signed with two
decimals and a percent sign, green when at least zero and red otherwise; a
NaN or infinite change renders as the placeholder. -/
def changeCell (data : symbolData) : String × Option CellColor :=
  match data.change with
  | some change =>
      (formatChange change,
       if 0 ≤ change then some CellColor.green else some CellColor.red)
  | none => ("-", none)

/-- One rendered table row: the symbol column and the four value cells with
their applied highlight. -/
structure RenderedRow where
  symbol : String
  yes : String × Option CellColor
  no : String × Option CellColor
  spread : String × Option CellColor
  change : String × Option CellColor
deriving DecidableEq

/-- Row construction of printTable for one slot. -/
def makeRow (good mediocre spread : ℚ) (data : symbolData) : RenderedRow :=
  ⟨data.symbol, yesCell good mediocre data, noCell good mediocre data,
   spreadCell spread data, changeCell data⟩

/-- printTable renders one row per slot, in slot order, with the in-source
bounds. -/
def printTableRows (symbols : List symbolData) : List RenderedRow :=
  symbols.map (makeRow goodPrice mediocrePrice goodSpread)

/-- Whole-run model of runScreener's streaming phase: the stream is consumed
from the empty table and the table is rendered only when no fatal condition
aborted the run. -/
def runScreenerStream (assetIDs : List String) (syms : List ScreenerSymbol)
    (enableYahoo : Bool) (getChange : String → Except String ℚ)
    (events : List BookMessage) : Except FatalError (List RenderedRow) :=
  Except.map (fun st => printTableRows st.symbols)
    (runStream assetIDs syms enableYahoo getChange (initState syms.length) events)

/-- Resolved slot index of an event (zero for an unrecognized identifier,
which acceptedEvent rules out). -/
def eventIndex (assetIDs : List String) (e : BookMessage) : ℕ :=
  (sliceIndex assetIDs e.assetID).getD 0

/-- Slot contents an accepted event writes. -/
def eventData (assetIDs : List String) (syms : List ScreenerSymbol)
    (enableYahoo : Bool) (getChange : String → Except String ℚ)
    (e : BookMessage) : symbolData :=
  let symbol := syms.getD (eventIndex assetIDs e) default
  ⟨symbol.symbol, symbol.yahoo,
   (getOrderSummary e.asks).toOption.getD none,
   ((getOrderSummary e.bids).toOption.getD none).map (fun p => 1 - p),
   none,
   (fetchChange enableYahoo getChange (yahooSymbolOf symbol)
       symbol.symbol).toOption.getD none⟩

/-- An event the callback accepts and fully processes: a book event whose
identifier resolves, whose prices parse, and whose reference join succeeds. -/
def acceptedEvent (assetIDs : List String) (syms : List ScreenerSymbol)
    (enableYahoo : Bool) (getChange : String → Except String ℚ)
    (e : BookMessage) : Prop :=
  e.eventType = bookEvent ∧
  (∃ i, sliceIndex assetIDs e.assetID = some i) ∧
  (∃ v, getOrderSummary e.asks = Except.ok v) ∧
  (∃ v, getOrderSummary e.bids = Except.ok v) ∧
  (∃ ch, fetchChange enableYahoo getChange
      (yahooSymbolOf (syms.getD (eventIndex assetIDs e) default))
      (syms.getD (eventIndex assetIDs e) default).symbol = Except.ok ch)

/-- The slot write an accepted event performs on the table. -/
def writeEvent (assetIDs : List String) (syms : List ScreenerSymbol)
    (ey : Bool) (gc : String → Except String ℚ)
    (symbols : List symbolData) (e : BookMessage) : List symbolData :=
  symbols.set (eventIndex assetIDs e) (eventData assetIDs syms ey gc e)

theorem handleMessage_of_accepted (assetIDs : List String)
    (syms : List ScreenerSymbol) (ey : Bool) (gc : String → Except String ℚ)
    (st : ScreenerState) (e : BookMessage)
    (h : acceptedEvent assetIDs syms ey gc e) :
    handleMessage assetIDs syms ey gc st e =
      Except.ok
        (⟨st.symbols.set (eventIndex assetIDs e) (eventData assetIDs syms ey gc e),
          st.symbolCount + 1, st.log⟩,
         decide (st.symbolCount + 1 < syms.length)) := by
  obtain ⟨hk, ⟨i, hi⟩, ⟨ya, ha⟩, ⟨yb, hb⟩, ⟨ch, hc⟩⟩ := h
  simp only [eventIndex, hi, Option.getD_some] at hc
  simp only [handleMessage, hk, if_pos rfl, hi, ha, hb, hc, eventData, eventIndex,
    Option.getD_some, Except.toOption, eq_self_iff_true, if_true]

theorem sliceIndex_eq_none_iff (l : List String) (a : String) :
    sliceIndex l a = none ↔ a ∉ l := by
  induction l with
  | nil => simp [sliceIndex]
  | cons x rest ih =>
      by_cases hx : x = a
      · simp [sliceIndex, hx]
      · simp [sliceIndex, hx, ih, Ne.symm hx]

theorem sliceIndex_lt_length (l : List String) (a : String) (i : ℕ)
    (h : sliceIndex l a = some i) : i < l.length := by
  induction l generalizing i with
  | nil => simp [sliceIndex] at h
  | cons x rest ih =>
      simp only [sliceIndex] at h
      by_cases hx : x = a
      · rw [if_pos hx] at h
        cases h
        simp
      · rw [if_neg hx] at h
        obtain ⟨j, hj, hji⟩ := Option.map_eq_some'.mp h
        have := ih j hj
        simp only [List.length_cons]
        omega

theorem runStream_eq_foldl (assetIDs : List String) (syms : List ScreenerSymbol)
    (ey : Bool) (gc : String → Except String ℚ) (l : List BookMessage)
    (st : ScreenerState)
    (hacc : ∀ e ∈ l, acceptedEvent assetIDs syms ey gc e)
    (hcnt : st.symbolCount + l.length ≤ syms.length) :
    runStream assetIDs syms ey gc st l =
      Except.ok
        ⟨l.foldl (writeEvent assetIDs syms ey gc) st.symbols,
         st.symbolCount + l.length, st.log⟩ := by
  induction l generalizing st with
  | nil =>
      simp [runStream]
  | cons e rest ih =>
      rw [runStream,
        handleMessage_of_accepted assetIDs syms ey gc st e
          (hacc e (List.mem_cons_self e rest))]
      by_cases hlt : st.symbolCount + 1 < syms.length
      · simp only [hlt, decide_eq_true_eq, if_true]
        rw [ih ⟨st.symbols.set (eventIndex assetIDs e) (eventData assetIDs syms ey gc e),
              st.symbolCount + 1, st.log⟩
            (fun x hx => hacc x (List.mem_cons_of_mem e hx))
            (by simp only [List.length_cons] at hcnt; simp only []; omega)]
        simp only [List.foldl_cons, writeEvent, List.length_cons]
        have hcount : st.symbolCount + 1 + rest.length = st.symbolCount + (rest.length + 1) := by
          omega
        rw [hcount]
      · have hrest : rest = [] := by
          cases rest with
          | nil => rfl
          | cons y ys =>
              exfalso
              simp only [List.length_cons] at hcnt
              omega
        subst hrest
        simp [hlt, writeEvent]

theorem foldl_writeEvent_perm (assetIDs : List String) (syms : List ScreenerSymbol)
    (ey : Bool) (gc : String → Except String ℚ) (l l' : List BookMessage)
    (init : List symbolData) (hperm : l.Perm l')
    (hdist : l.Pairwise (fun a b => eventIndex assetIDs a ≠ eventIndex assetIDs b)) :
    l.foldl (writeEvent assetIDs syms ey gc) init =
      l'.foldl (writeEvent assetIDs syms ey gc) init := by
  apply hperm.foldl_eq'
  intro x hx y hy z
  by_cases hxy : x = y
  · subst hxy
    rfl
  · have hsymm : Symmetric fun a b => eventIndex assetIDs a ≠ eventIndex assetIDs b :=
      fun a b hab => Ne.symm hab
    have hne := List.Pairwise.forall hsymm hdist hx hy hxy
    simp only [writeEvent]
    exact List.set_comm _ _ _ hne

theorem nodup_lt_length_le (n : ℕ) (l : List ℕ) (hnd : l.Nodup)
    (hlt : ∀ x ∈ l, x < n) : l.length ≤ n := by
  have h1 : l.toFinset.card = l.length := List.toFinset_card_of_nodup hnd
  have h2 : l.toFinset ⊆ Finset.range n := by
    intro x hx
    exact Finset.mem_range.mpr (hlt x (List.mem_toFinset.mp hx))
  calc l.length = l.toFinset.card := h1.symm
    _ ≤ (Finset.range n).card := Finset.card_le_card h2
    _ = n := Finset.card_range n

theorem length_le_of_distinct_indices (assetIDs : List String)
    (l : List BookMessage)
    (hres : ∀ e ∈ l, ∃ i, sliceIndex assetIDs e.assetID = some i)
    (hdist : l.Pairwise (fun a b => eventIndex assetIDs a ≠ eventIndex assetIDs b)) :
    l.length ≤ assetIDs.length := by
  have hmap : (l.map (eventIndex assetIDs)).Nodup := List.pairwise_map.mpr hdist
  have hlt : ∀ x ∈ l.map (eventIndex assetIDs), x < assetIDs.length := by
    intro x hx
    obtain ⟨e, he, rfl⟩ := List.mem_map.mp hx
    obtain ⟨i, hi⟩ := hres e he
    simpa [eventIndex, hi] using sliceIndex_lt_length assetIDs e.assetID i hi
  have hlen := nodup_lt_length_le assetIDs.length (l.map (eventIndex assetIDs)) hmap hlt
  simpa using hlen

theorem foldl_writeEvent_length (assetIDs : List String) (syms : List ScreenerSymbol)
    (ey : Bool) (gc : String → Except String ℚ) (l : List BookMessage)
    (init : List symbolData) :
    (l.foldl (writeEvent assetIDs syms ey gc) init).length = init.length := by
  induction l generalizing init with
  | nil => rfl
  | cons e rest ih =>
      simp only [List.foldl_cons, ih, writeEvent, List.length_set]

/-- Two-instrument fixture: watched symbols A and B. -/
def exSyms : List ScreenerSymbol := [⟨"A", ""⟩, ⟨"B", ""⟩]

/-- Asset identifiers of the two fixture instruments, in configured order. -/
def exAssetIDs : List String := ["id-a", "id-b"]

/-- A book-snapshot event for instrument B: bid levels ending at 0.40, ask
levels ending at 0.60. -/
def exEventB : BookMessage := ⟨bookEvent, "id-b", [⟨"0.40", "1"⟩], [⟨"0.60", "1"⟩]⟩

/-- A book-snapshot event for instrument A: bid levels ending at 0.20, ask
levels ending at 0.35. -/
def exEventA : BookMessage := ⟨bookEvent, "id-a", [⟨"0.20", "1"⟩], [⟨"0.35", "1"⟩]⟩

/-- The slot data exEventB writes with the reference lookup disabled. -/
def exDataB : symbolData := ⟨"B", "", some (mkRat 3 5), some (mkRat 3 5), none, none⟩

/-- A reference-change collaborator that always fails, for runs with the
lookup disabled where it is never consulted. -/
def noChange : String → Except String ℚ := fun _ => Except.error "offline"

/-- C2: a stream event whose kind is not the recognized book-snapshot kind
makes the callback return false immediately and unconditionally (whatever the
fill count and whatever asset it concerns), with no slot, counter or log
modified, and delivery stops with no later event processed. -/
theorem C2_non_book_event_stops (assetIDs : List String)
    (syms : List ScreenerSymbol) (ey : Bool) (gc : String → Except String ℚ)
    (st : ScreenerState) (e : BookMessage) (rest : List BookMessage)
    (h : e.eventType ≠ bookEvent) :
    handleMessage assetIDs syms ey gc st e = Except.ok (st, false) ∧
    runStream assetIDs syms ey gc st (e :: rest) = Except.ok st := by
  constructor
  · simp [handleMessage, h]
  · rw [runStream]
    simp [handleMessage, h]

/-- Witness for C2 at a concrete non-book event, from a state with no
instrument yet filled. -/
theorem C2_witness :
    handleMessage exAssetIDs exSyms false noChange (initState 2)
        ⟨"price_change", "id-a", [], []⟩ =
      Except.ok (initState 2, false) ∧
    runStream exAssetIDs exSyms false noChange (initState 2)
        [⟨"price_change", "id-a", [], []⟩, exEventA] = Except.ok (initState 2) :=
  C2_non_book_event_stops exAssetIDs exSyms false noChange (initState 2)
    ⟨"price_change", "id-a", [], []⟩ [exEventA] (by decide)

/-- C6: a book event whose asset identifier is outside the watched set only
appends the unknown-identifier notice to the output, writes no slot, leaves
the counter untouched, is not fatal, and the callback still returns
symbolCount < total, which is true while fewer fills than instruments have
been counted. -/
theorem C6_unknown_asset_ignored (assetIDs : List String)
    (syms : List ScreenerSymbol) (ey : Bool) (gc : String → Except String ℚ)
    (st : ScreenerState) (e : BookMessage)
    (hk : e.eventType = bookEvent) (hu : e.assetID ∉ assetIDs) :
    handleMessage assetIDs syms ey gc st e =
      Except.ok
        (⟨st.symbols, st.symbolCount,
          st.log ++ ["Unknown asset ID: " ++ e.assetID]⟩,
         decide (st.symbolCount < syms.length)) ∧
    (st.symbolCount < syms.length →
      ∃ st', handleMessage assetIDs syms ey gc st e = Except.ok (st', true)) := by
  have hi : sliceIndex assetIDs e.assetID = none :=
    (sliceIndex_eq_none_iff assetIDs e.assetID).mpr hu
  have hmain : handleMessage assetIDs syms ey gc st e =
      Except.ok
        (⟨st.symbols, st.symbolCount,
          st.log ++ ["Unknown asset ID: " ++ e.assetID]⟩,
         decide (st.symbolCount < syms.length)) := by
    simp [handleMessage, hk, hi]
  refine ⟨hmain, fun hlt => ?_⟩
  refine ⟨⟨st.symbols, st.symbolCount, st.log ++ ["Unknown asset ID: " ++ e.assetID]⟩, ?_⟩
  rw [hmain, decide_eq_true hlt]

/-- Witness for C6: an unknown identifier with one of two instruments
filled; the notice is printed and the callback returns true. -/
theorem C6_witness :
    handleMessage exAssetIDs exSyms false noChange ⟨[default, exDataB], 1, []⟩
        ⟨bookEvent, "id-z", [], []⟩ =
      Except.ok
        (⟨[default, exDataB], 1, ["Unknown asset ID: id-z"]⟩,
         decide ((⟨[default, exDataB], 1, []⟩ : ScreenerState).symbolCount < exSyms.length)) ∧
    ((⟨[default, exDataB], 1, []⟩ : ScreenerState).symbolCount < exSyms.length →
      ∃ st', handleMessage exAssetIDs exSyms false noChange ⟨[default, exDataB], 1, []⟩
          ⟨bookEvent, "id-z", [], []⟩ = Except.ok (st', true)) :=
  C6_unknown_asset_ignored exAssetIDs exSyms false noChange
    ⟨[default, exDataB], 1, []⟩ ⟨bookEvent, "id-z", [], []⟩ (by decide) (by decide)

/-- C9 (implicit): a book-snapshot event for a watched instrument whose two
level sequences are both empty still writes that instrument's slot, with all
price metrics absent, and still advances the completion counter by one; the
kept predicate counts it like any other fill. -/
theorem C9_empty_book_fills_slot (assetIDs : List String)
    (syms : List ScreenerSymbol) (ey : Bool) (gc : String → Except String ℚ)
    (st : ScreenerState) (e : BookMessage) (index : ℕ) (ch : Option ℚ)
    (hk : e.eventType = bookEvent)
    (hi : sliceIndex assetIDs e.assetID = some index)
    (hb : e.bids = []) (ha : e.asks = [])
    (hc : fetchChange ey gc (yahooSymbolOf (syms.getD index default))
        (syms.getD index default).symbol = Except.ok ch) :
    handleMessage assetIDs syms ey gc st e =
      Except.ok
        (⟨st.symbols.set index
            ⟨(syms.getD index default).symbol, (syms.getD index default).yahoo,
             none, none, none, ch⟩,
          st.symbolCount + 1, st.log⟩,
         decide (st.symbolCount + 1 < syms.length)) := by
  simp only [List.getD_eq_getElem?_getD] at hc
  simp [handleMessage, hk, hi, hb, ha, getOrderSummary, hc]

/-- Witness for C9: an empty-book event for instrument B from the empty
two-instrument table; the slot is written with absent metrics and the count
becomes one, keeping the stream alive. -/
theorem C9_witness :
    handleMessage exAssetIDs exSyms false noChange (initState 2)
        ⟨bookEvent, "id-b", [], []⟩ =
      Except.ok
        (⟨(initState 2).symbols.set 1
            ⟨(exSyms.getD 1 default).symbol, (exSyms.getD 1 default).yahoo,
             none, none, none, none⟩,
          (initState 2).symbolCount + 1, (initState 2).log⟩,
         decide ((initState 2).symbolCount + 1 < exSyms.length)) :=
  C9_empty_book_fills_slot exAssetIDs exSyms false noChange (initState 2)
    ⟨bookEvent, "id-b", [], []⟩ 1 none (by decide) (by decide) rfl rfl (by decide)

/-- C3: the derived best price of a nonempty level sequence is the price of
its LAST element (not a minimum or maximum over the levels); an empty
sequence has no best price; and the rendered spread is the placeholder
whenever either side's price is absent. -/
theorem C3_best_price_is_last (l : List OrderSummary) :
    (l = [] → getOrderSummary l = Except.ok none) ∧
    (∀ lastLevel p, l.getLast? = some lastLevel →
        parseDecimal lastLevel.price = some p →
        getOrderSummary l = Except.ok (some p)) ∧
    (∀ good data, data.yes = none ∨ data.no = none →
        spreadCell good data = ("-", none)) := by
  refine ⟨?_, ?_, ?_⟩
  · rintro rfl
    rfl
  · intro lastLevel p hl hp
    simp [getOrderSummary, hl, hp]
  · rintro good ⟨s, yh, y, n, sp, c⟩ (h | h) <;> simp only at h <;> subst h
    · rfl
    · cases y <;> rfl

/-- Witness for C3 at the three-level sequence 0.90, 0.20, 0.55: the best
price is the last price 0.55, neither the minimum 0.20 nor the maximum 0.90;
and a slot missing its yes price renders the placeholder spread. -/
theorem C3_witness :
    getOrderSummary [⟨"0.90", "1"⟩, ⟨"0.20", "1"⟩, ⟨"0.55", "1"⟩] =
      Except.ok (some (mkRat 11 20)) ∧
    spreadCell goodSpread ⟨"A", "", none, some (mkRat 7 10), none, none⟩ =
      ("-", none) :=
  ⟨((C3_best_price_is_last [⟨"0.90", "1"⟩, ⟨"0.20", "1"⟩, ⟨"0.55", "1"⟩]).2.1
      ⟨"0.55", "1"⟩ (mkRat 11 20) (by decide) (by decide)),
   ((C3_best_price_is_last []).2.2 goodSpread
      ⟨"A", "", none, some (mkRat 7 10), none, none⟩ (Or.inl rfl))⟩

/-- C4: in the Yes/No variant, an accepted book-snapshot event stores
yes = best ask-side price and no = 1 minus the best bid-side price (each
absent when its side is empty, by C3), and printTable derives the spread as
(yes + no) - 1 whenever both are present. -/
theorem C4_yes_no_mode (assetIDs : List String) (syms : List ScreenerSymbol)
    (ey : Bool) (gc : String → Except String ℚ) (st : ScreenerState)
    (e : BookMessage) (index : ℕ) (a b : ℚ) (ch : Option ℚ)
    (hk : e.eventType = bookEvent)
    (hi : sliceIndex assetIDs e.assetID = some index)
    (ha : getOrderSummary e.asks = Except.ok (some a))
    (hb : getOrderSummary e.bids = Except.ok (some b))
    (hc : fetchChange ey gc (yahooSymbolOf (syms.getD index default))
        (syms.getD index default).symbol = Except.ok ch) :
    handleMessage assetIDs syms ey gc st e =
      Except.ok
        (⟨st.symbols.set index
            ⟨(syms.getD index default).symbol, (syms.getD index default).yahoo,
             some a, some (1 - b), none, ch⟩,
          st.symbolCount + 1, st.log⟩,
         decide (st.symbolCount + 1 < syms.length)) ∧
    (∀ data : symbolData, ∀ y n : ℚ, data.yes = some y → data.no = some n →
        (spreadCell goodSpread data).1 = stringFixed2 (y + n - 1)) ∧
    (∀ data : symbolData, data.yes = none ∨ data.no = none →
        (spreadCell goodSpread data).1 = "-") := by
  refine ⟨?_, ?_, ?_⟩
  · simp only [List.getD_eq_getElem?_getD] at hc
    simp [handleMessage, hk, hi, ha, hb, hc]
  · rintro ⟨s, yh, dy, dn, sp, c⟩ y n hy hn
    simp only at hy hn
    subst hy
    subst hn
    simp only [spreadCell]
    by_cases hcase : goodSpread ≤ y + n - 1
    · rw [if_pos hcase]
    · rw [if_neg hcase]
  · rintro ⟨s, yh, dy, dn, sp, c⟩ (h | h) <;> simp only at h <;> subst h
    · rfl
    · cases dy <;> rfl

/-- Witness for C4 at the spec's concrete instance: bid best 0.30 and ask
best 0.55 store yes = 0.55 and no = 0.70, and the rendered spread is
0.55 + 0.70 - 1 = 0.25. -/
theorem C4_witness :
    handleMessage exAssetIDs exSyms false noChange (initState 2)
        ⟨bookEvent, "id-a", [⟨"0.30", "1"⟩], [⟨"0.55", "1"⟩]⟩ =
      Except.ok
        (⟨(initState 2).symbols.set 0
            ⟨(exSyms.getD 0 default).symbol, (exSyms.getD 0 default).yahoo,
             some (mkRat 11 20), some (1 - mkRat 3 10), none, none⟩,
          (initState 2).symbolCount + 1, (initState 2).log⟩,
         decide ((initState 2).symbolCount + 1 < exSyms.length)) ∧
    stringFixed2 (mkRat 11 20 + (1 - mkRat 3 10) - 1) = "0.25" := by
  constructor
  · exact (C4_yes_no_mode exAssetIDs exSyms false noChange (initState 2)
      ⟨bookEvent, "id-a", [⟨"0.30", "1"⟩], [⟨"0.55", "1"⟩]⟩ 0
      (mkRat 11 20) (mkRat 3 10) none
      (by decide) (by decide) (by decide) (by decide) (by decide)).1
  · decide

/-- C5 counterexample: the yes price 0 is present, the reference change +1
agrees with the yes side's direction, and 0 is at or below the good bound
0.50, so the claim demands the Favorable tier; printTable's additional
IsPositive guard leaves the cell with no highlight. -/
theorem C5_counterexample :
    (0 : ℚ) ≤ goodPrice ∧ (0 : ℚ) < 1 ∧
    (yesCell goodPrice mediocrePrice ⟨"A", "", some 0, none, none, some 1⟩).2 =
      none := by
  decide

/-- C5 amended: for a present price whose side's direction agrees with the
sign of the reference change AND whose value is strictly positive, the tier
is green at or below the good bound, yellow at or below the mediocre bound
and plain above both; a nonpositive value, a disagreeing or zero change, an
absent value or an undefined change yields no highlight regardless of the
bounds. -/
theorem C5_amended_classification (good mediocre : ℚ) (data : symbolData) :
    (∀ c y, data.change = some c → data.yes = some y → 0 < c → 0 < y →
        (yesCell good mediocre data).2 =
          (if y ≤ good then some CellColor.green
           else if y ≤ mediocre then some CellColor.yellow else none)) ∧
    (∀ c y, data.change = some c → data.yes = some y → ¬(0 < c ∧ 0 < y) →
        (yesCell good mediocre data).2 = none) ∧
    (data.change = none ∨ data.yes = none → (yesCell good mediocre data).2 = none) ∧
    (∀ c n, data.change = some c → data.no = some n → c < 0 → 0 < n →
        (noCell good mediocre data).2 =
          (if n ≤ good then some CellColor.green
           else if n ≤ mediocre then some CellColor.yellow else none)) ∧
    (∀ c n, data.change = some c → data.no = some n → ¬(c < 0 ∧ 0 < n) →
        (noCell good mediocre data).2 = none) ∧
    (data.change = none ∨ data.no = none → (noCell good mediocre data).2 = none) := by
  obtain ⟨s, yh, dy, dn, sp, dc⟩ := data
  refine ⟨?_, ?_, ?_, ?_, ?_, ?_⟩
  · intro c y hc hy hpc hpy
    simp only at hc hy
    subst hc
    subst hy
    simp only [yesCell, if_pos (And.intro hpc hpy)]
    by_cases h1 : y ≤ good
    · rw [if_pos h1, if_pos h1]
    · rw [if_neg h1, if_neg h1]
      by_cases h2 : y ≤ mediocre
      · rw [if_pos h2, if_pos h2]
      · rw [if_neg h2, if_neg h2]
  · intro c y hc hy hno
    simp only at hc hy
    subst hc
    subst hy
    simp only [yesCell, if_neg hno]
  · rintro (h | h) <;> simp only at h <;> subst h
    · cases dy <;> rfl
    · cases dc <;> rfl
  · intro c n hc hn hnc hpn
    simp only at hc hn
    subst hc
    subst hn
    simp only [noCell, if_pos (And.intro hnc hpn)]
    by_cases h1 : n ≤ good
    · rw [if_pos h1, if_pos h1]
    · rw [if_neg h1, if_neg h1]
      by_cases h2 : n ≤ mediocre
      · rw [if_pos h2, if_pos h2]
      · rw [if_neg h2, if_neg h2]
  · intro c n hc hn hno
    simp only at hc hn
    subst hc
    subst hn
    simp only [noCell, if_neg hno]
  · rintro (h | h) <;> simp only at h <;> subst h
    · cases dn <;> rfl
    · cases dc <;> rfl

/-- Witness for the amended C5 at the spec's instances with the in-source
bounds good 0.50 and mediocre 0.75: value 0.40 with agreeing signal is green,
0.60 is yellow, 0.90 plain, and a disagreeing signal at 0.40 is plain. -/
theorem C5_witness :
    (yesCell goodPrice mediocrePrice ⟨"A", "", some (mkRat 2 5), none, none, some 1⟩).2 =
      some CellColor.green ∧
    (yesCell goodPrice mediocrePrice ⟨"A", "", some (mkRat 3 5), none, none, some 1⟩).2 =
      some CellColor.yellow ∧
    (yesCell goodPrice mediocrePrice ⟨"A", "", some (mkRat 9 10), none, none, some 1⟩).2 =
      none ∧
    (yesCell goodPrice mediocrePrice ⟨"A", "", some (mkRat 2 5), none, none, some (-1)⟩).2 =
      none := by
  refine ⟨?_, ?_, ?_, ?_⟩
  · rw [(C5_amended_classification goodPrice mediocrePrice
      ⟨"A", "", some (mkRat 2 5), none, none, some 1⟩).1 1 (mkRat 2 5)
      rfl rfl (by decide) (by decide)]
    decide
  · rw [(C5_amended_classification goodPrice mediocrePrice
      ⟨"A", "", some (mkRat 3 5), none, none, some 1⟩).1 1 (mkRat 3 5)
      rfl rfl (by decide) (by decide)]
    decide
  · rw [(C5_amended_classification goodPrice mediocrePrice
      ⟨"A", "", some (mkRat 9 10), none, none, some 1⟩).1 1 (mkRat 9 10)
      rfl rfl (by decide) (by decide)]
    decide
  · exact (C5_amended_classification goodPrice mediocrePrice
      ⟨"A", "", some (mkRat 2 5), none, none, some (-1)⟩).2.1 (-1) (mkRat 2 5)
      rfl rfl (by decide)

/-- C10 (implicit): a reference change of exactly zero never lets the yes or
no cell reach a Favorable or Mediocre highlight (the guards demand a strictly
positive change for yes and strictly negative for no), yet the change cell
itself renders in the green style with the "+0.00%" text. -/
theorem C10_zero_change_presentation (good mediocre : ℚ) (data : symbolData)
    (h : data.change = some 0) :
    (yesCell good mediocre data).2 = none ∧
    (noCell good mediocre data).2 = none ∧
    changeCell data = ("+0.00%", some CellColor.green) := by
  obtain ⟨s, yh, dy, dn, sp, dc⟩ := data
  simp only at h
  subst h
  refine ⟨?_, ?_, ?_⟩
  · cases dy with
    | none => rfl
    | some y =>
        simp only [yesCell]
        rw [if_neg]
        intro hcontra
        exact absurd hcontra.1 (lt_irrefl 0)
  · cases dn with
    | none => rfl
    | some n =>
        simp only [noCell]
        rw [if_neg]
        intro hcontra
        exact absurd hcontra.1 (lt_asymm hcontra.1)
  · simp only [changeCell]
    decide

/-- Witness for C10 at a concrete slot with both prices present and change
exactly zero. -/
theorem C10_witness :
    (yesCell goodPrice mediocrePrice
        ⟨"A", "", some (mkRat 2 5), some (mkRat 2 5), none, some 0⟩).2 = none ∧
    (noCell goodPrice mediocrePrice
        ⟨"A", "", some (mkRat 2 5), some (mkRat 2 5), none, some 0⟩).2 = none ∧
    changeCell ⟨"A", "", some (mkRat 2 5), some (mkRat 2 5), none, some 0⟩ =
      ("+0.00%", some CellColor.green) :=
  C10_zero_change_presentation goodPrice mediocrePrice
    ⟨"A", "", some (mkRat 2 5), some (mkRat 2 5), none, some 0⟩ rfl

/-- C8: when an accepted event carries a level price that does not parse as a
decimal, the run aborts with the MalformedPrice fatal condition naming that
exact textual value (ask side checked first, then bid side), the remaining
events are never processed, the diagnostic identifies the value, and a run
that aborts renders no table at all. -/
theorem C8_malformed_price_fatal (assetIDs : List String)
    (syms : List ScreenerSymbol) (ey : Bool) (gc : String → Except String ℚ)
    (st : ScreenerState) (e : BookMessage) (rest : List BookMessage)
    (index : ℕ)
    (hk : e.eventType = bookEvent)
    (hi : sliceIndex assetIDs e.assetID = some index) :
    (∀ s, getOrderSummary e.asks = Except.error s →
        runStream assetIDs syms ey gc st (e :: rest) =
          Except.error (FatalError.malformedPrice s) ∧
        fatalMessage (FatalError.malformedPrice s) = "Failed to parse price: " ++ s) ∧
    (∀ v s, getOrderSummary e.asks = Except.ok v →
        getOrderSummary e.bids = Except.error s →
        runStream assetIDs syms ey gc st (e :: rest) =
          Except.error (FatalError.malformedPrice s)) ∧
    (∀ events err,
        runStream assetIDs syms ey gc (initState syms.length) events =
          Except.error err →
        runScreenerStream assetIDs syms ey gc events = Except.error err) := by
  refine ⟨?_, ?_, ?_⟩
  · intro s hs
    constructor
    · rw [runStream]
      simp [handleMessage, hk, hi, hs]
    · rfl
  · intro v s hv hs
    rw [runStream]
    simp [handleMessage, hk, hi, hv, hs]
  · intro events err herr
    simp only [runScreenerStream, herr]
    rfl

/-- Witness for C8: an event whose ask-side last price is the unparseable
text "bogus" aborts the whole run with the diagnostic value, and the aborted
run produces no rendered rows. -/
theorem C8_witness :
    runStream exAssetIDs exSyms false noChange (initState 2)
        [⟨bookEvent, "id-a", [⟨"0.30", "1"⟩], [⟨"bogus", "1"⟩]⟩, exEventB] =
      Except.error (FatalError.malformedPrice "bogus") ∧
    fatalMessage (FatalError.malformedPrice "bogus") =
      "Failed to parse price: " ++ "bogus" ∧
    runScreenerStream exAssetIDs exSyms false noChange
        [⟨bookEvent, "id-a", [⟨"0.30", "1"⟩], [⟨"bogus", "1"⟩]⟩, exEventB] =
      Except.error (FatalError.malformedPrice "bogus") := by
  have h := C8_malformed_price_fatal exAssetIDs exSyms false noChange (initState 2)
    ⟨bookEvent, "id-a", [⟨"0.30", "1"⟩], [⟨"bogus", "1"⟩]⟩ [exEventB] 0
    (by decide) (by decide)
  obtain ⟨hrun, hmsg⟩ := h.1 "bogus" (by decide)
  exact ⟨hrun, hmsg, h.2.2 _ _ hrun⟩

/-- C1 counterexample: with two watched instruments and instrument B already
filled once (count 1), the claim demands that a duplicate book event for B
leave the count at 1 and the keep-listening result true; the code instead
counts the duplicate, reaching 2, and the callback returns false with
instrument A's slot still the zero value. -/
theorem C1_counterexample :
    handleMessage exAssetIDs exSyms false noChange
        ⟨[default, exDataB], 1, []⟩ exEventB =
      Except.ok (⟨[default, exDataB], 2, []⟩, false) := by
  decide

/-- C1 amended: the completion counter counts accepted book events, not
distinct filled instruments: EVERY accepted event for a recognized
identifier, a repeat of an already-filled index included, advances the count
by one, and the callback returns true exactly while that event count stays
below the number of watched instruments; hence the predicate turns false on
the Nth accepted event, which is the Nth distinct fill only when no
duplicates occurred. -/
theorem C1_amended_event_count (assetIDs : List String)
    (syms : List ScreenerSymbol) (ey : Bool) (gc : String → Except String ℚ)
    (st : ScreenerState) (e : BookMessage)
    (h : acceptedEvent assetIDs syms ey gc e) :
    ∃ st', handleMessage assetIDs syms ey gc st e =
        Except.ok (st', decide (st.symbolCount + 1 < syms.length)) ∧
      st'.symbolCount = st.symbolCount + 1 :=
  ⟨_, handleMessage_of_accepted assetIDs syms ey gc st e h, rfl⟩

/-- Witness for the amended C1 at the duplicate event of the counterexample:
the second fill of instrument B advances the count from 1 to 2 and the
callback returns decide (2 < 2) = false. -/
theorem C1_witness :
    ∃ st', handleMessage exAssetIDs exSyms false noChange
        ⟨[default, exDataB], 1, []⟩ exEventB =
        Except.ok (st',
          decide ((⟨[default, exDataB], 1, []⟩ : ScreenerState).symbolCount + 1 <
            exSyms.length)) ∧
      st'.symbolCount =
        (⟨[default, exDataB], 1, []⟩ : ScreenerState).symbolCount + 1 :=
  C1_amended_event_count exAssetIDs exSyms false noChange
    ⟨[default, exDataB], 1, []⟩ exEventB
    ⟨by decide, ⟨1, by decide⟩, ⟨some (mkRat 3 5), by decide⟩,
     ⟨some (mkRat 2 5), by decide⟩, ⟨none, by decide⟩⟩

/-- C7: the rendered table has one row per watched instrument, in slot
(configured) order, and is independent of the arrival order of the accepted
events: for accepted events with pairwise distinct resolved indices, any
permutation of the arrival order produces the identical table. -/
theorem C7_arrival_order_irrelevant (assetIDs : List String)
    (syms : List ScreenerSymbol) (ey : Bool) (gc : String → Except String ℚ)
    (events₁ events₂ : List BookMessage)
    (hperm : events₁.Perm events₂)
    (hlen : assetIDs.length = syms.length)
    (hacc : ∀ e ∈ events₁, acceptedEvent assetIDs syms ey gc e)
    (hdist : events₁.Pairwise
      (fun a b => eventIndex assetIDs a ≠ eventIndex assetIDs b)) :
    runScreenerStream assetIDs syms ey gc events₁ =
      runScreenerStream assetIDs syms ey gc events₂ ∧
    (∀ rows, runScreenerStream assetIDs syms ey gc events₁ = Except.ok rows →
      rows.length = syms.length) := by
  have hres : ∀ e ∈ events₁, ∃ i, sliceIndex assetIDs e.assetID = some i :=
    fun e he => (hacc e he).2.1
  have hlen1 : events₁.length ≤ syms.length := by
    have hbound := length_le_of_distinct_indices assetIDs events₁ hres hdist
    omega
  have hacc2 : ∀ e ∈ events₂, acceptedEvent assetIDs syms ey gc e :=
    fun e he => hacc e (hperm.mem_iff.mpr he)
  have hlen2 : events₂.length ≤ syms.length := by
    rw [← hperm.length_eq]
    exact hlen1
  have h1 := runStream_eq_foldl assetIDs syms ey gc events₁ (initState syms.length)
    hacc (by simpa [initState] using hlen1)
  have h2 := runStream_eq_foldl assetIDs syms ey gc events₂ (initState syms.length)
    hacc2 (by simpa [initState] using hlen2)
  constructor
  · simp only [runScreenerStream, h1, h2]
    rw [foldl_writeEvent_perm assetIDs syms ey gc events₁ events₂
        (initState syms.length).symbols hperm hdist,
      hperm.length_eq]
  · intro rows hrows
    simp only [runScreenerStream, h1, Except.map] at hrows
    cases hrows
    simp [printTableRows, foldl_writeEvent_length, initState]

/-- Witness for C7: the spec's two-instrument scenario, with events for B
then A against events for A then B; both runs render the same table, whose
two rows are in configured order A before B. -/
theorem C7_witness :
    runScreenerStream exAssetIDs exSyms false noChange [exEventB, exEventA] =
      runScreenerStream exAssetIDs exSyms false noChange [exEventA, exEventB] ∧
    (∀ rows, runScreenerStream exAssetIDs exSyms false noChange
        [exEventB, exEventA] = Except.ok rows → rows.length = exSyms.length) :=
  C7_arrival_order_irrelevant exAssetIDs exSyms false noChange
    [exEventB, exEventA] [exEventA, exEventB]
    (List.Perm.swap exEventA exEventB [])
    (by decide)
    (by
      intro e he
      rcases List.mem_pair.mp he with rfl | rfl
      · exact ⟨by decide, ⟨1, by decide⟩, ⟨some (mkRat 3 5), by decide⟩,
          ⟨some (mkRat 2 5), by decide⟩, ⟨none, by decide⟩⟩
      · exact ⟨by decide, ⟨0, by decide⟩, ⟨some (mkRat 7 20), by decide⟩,
          ⟨some (mkRat 1 5), by decide⟩, ⟨none, by decide⟩⟩)
    (by
      constructor
      · intro b hb
        rcases List.mem_singleton.mp hb with rfl
        decide
      · exact List.pairwise_singleton _ _)
